import Mathlib

/-!
Verification development for the BLS12 pairing API of this repository.

The file embeds `src/public_interface/pairing_ops.rs` (the request-decoding,
tower-construction and pairing-dispatch pipeline) and
`fuzz/fuzz_targets/fuzz_target_compare.rs` (the differential harness) as
executable Lean definitions, and proves the spec's claims about them.

Components of the repository that are only called from this code (the byte
decoders, the tower-field arithmetic, the Frobenius-coefficient calculators,
the subgroup checks and the pairing engine) are not part of the given source
tree; they are either modelled from the spec (doc comments say so) or kept
as explicit parameters (`Externals`), so every theorem quantifies over all
possible behaviours of those components.

Machine integers and big integers are embedded as `Nat`; byte strings as
`List Nat`.
-/

/-- Modelled from the spec: curve-type tag length in bytes (`constants.rs` is
not in the source tree; the spec fixes one byte). -/
def CURVE_TYPE_LENGTH : Nat := 1

/-- Modelled from the spec: the BLS12 curve-type tag byte (`0x01`). -/
def BLS12 : Nat := 0x01

/-- Modelled from the spec: twist-type tag length in bytes. -/
def TWIST_TYPE_LENGTH : Nat := 1

/-- Modelled from the spec: the D twist-type tag byte. The spec fixes only
that the D and M tags are two distinct byte values. -/
def TWIST_TYPE_D : Nat := 0x01

/-- Modelled from the spec: the M twist-type tag byte. -/
def TWIST_TYPE_M : Nat := 0x02

/-- Modelled from the spec: sign tag length in bytes. -/
def SIGN_ENCODING_LENGTH : Nat := 1

/-- Modelled from the spec: the plus sign tag byte. -/
def SIGN_PLUS : Nat := 0x00

/-- Modelled from the spec: the minus sign tag byte. -/
def SIGN_MINUS : Nat := 0x01

/-- Modelled from the spec: length-prefix width in bytes ("one byte for
length encoding"). -/
def BYTES_FOR_LENGTH_ENCODING : Nat := 1

/-- Modelled from the spec: the error kinds of `crate::errors::ApiError`
surfaced by the pairing API (spec section 7 names exactly these three). -/
inductive ApiError where
  | InputError (msg : String)
  | UnknownParameter (msg : String)
  | UnexpectedZero (msg : String)
deriving DecidableEq

/-- Result of running an API entry point.  Rust functions return
`Result<Vec<u8>, ApiError>` but can also panic (`unimplemented!`); the
`panic` constructor records that fatal path explicitly. -/
inductive RunResult (α : Type) where
  | ok (value : α)
  | error (e : ApiError)
  | panic (msg : String)
deriving DecidableEq

/-- Lift an ordinary `Result` into `RunResult` (no panic). -/
def liftResult {α : Type} : Except ApiError α → RunResult α
  | .ok a => .ok a
  | .error e => .error e

/-- An element of Fp2, the quadratic extension of the base field: a pair of
base-field elements (each a `Nat` reduced modulo the field modulus). -/
structure Fp2R where
  c0 : Nat
  c1 : Nat
deriving DecidableEq

/-- An element of Fp6 as a cubic extension of Fp2. -/
structure Fp6R where
  c0 : Fp2R
  c1 : Fp2R
  c2 : Fp2R
deriving DecidableEq

/-- An element of Fp12 as a quadratic extension of Fp6. -/
structure Fp12R where
  c0 : Fp6R
  c1 : Fp6R
deriving DecidableEq

/-- The zero element of Fp2. -/
def fp2Zero : Fp2R := ⟨0, 0⟩

/-- The one element of Fp2 over modulus `p`. -/
def fp2One (p : Nat) : Fp2R := ⟨1 % p, 0⟩

/-- Modelled from the spec: Fp2 addition (coordinatewise, modulo `p`).
The tower-arithmetic sources (`extension_towers/*.rs`) are not in the
source tree; the spec describes Fp2 as the quadratic extension of Fp by a
non-residue. -/
def fp2Add (p : Nat) (x y : Fp2R) : Fp2R :=
  ⟨(x.c0 + y.c0) % p, (x.c1 + y.c1) % p⟩

/-- Modelled from the spec: Fp2 multiplication, where `nr` is the Fp
non-residue defining the extension: `(a0 + a1 u)(b0 + b1 u) =
(a0 b0 + nr a1 b1) + (a0 b1 + a1 b0) u`. -/
def fp2Mul (p nr : Nat) (x y : Fp2R) : Fp2R :=
  ⟨(x.c0 * y.c0 + nr * (x.c1 * y.c1)) % p, (x.c0 * y.c1 + x.c1 * y.c0) % p⟩

/-- Modelled from the spec: `Fp2::mul_by_fp`, scaling both coordinates by a
base-field element. -/
def fp2MulByFp (p : Nat) (x : Fp2R) (b : Nat) : Fp2R :=
  ⟨x.c0 * b % p, x.c1 * b % p⟩

/-- All Fp2 elements with reduced coordinates, enumerated. -/
def allFp2 (p : Nat) : List Fp2R :=
  (List.range p).flatMap (fun i => (List.range p).map (fun j => ⟨i, j⟩))

/-- Modelled from the spec: `Fp2::inverse`.  The spec requires only the
defining property of an inverse ("every non-residue used to build a tower
level must be invertible (checked before use)"), so the model returns a
multiplicative inverse when one exists among reduced elements and `none`
otherwise. -/
def fp2Inverse (p nr : Nat) (x : Fp2R) : Option Fp2R :=
  (allFp2 p).find? (fun y => decide (fp2Mul p nr x y = fp2One p))

/-- The zero element of Fp6. -/
def fp6Zero : Fp6R := ⟨fp2Zero, fp2Zero, fp2Zero⟩

/-- The one element of Fp12 over modulus `p` (`Fp12::one`). -/
def fp12One (p : Nat) : Fp12R := ⟨⟨fp2One p, fp2Zero, fp2Zero⟩, fp6Zero⟩

/-- The quadratic extension descriptor `Extension2` (field reference is the
modulus `p`; two Frobenius coefficients, zero-initialised before being
patched). -/
structure Extension2 where
  p : Nat
  non_residue : Nat
  frobenius_coeffs_c1 : Nat × Nat
deriving DecidableEq

/-- The cubic-over-quadratic extension descriptor `Extension3Over2`. -/
structure Extension3Over2 where
  non_residue : Fp2R
  field : Extension2
  frobenius_coeffs_c1 : List Fp2R
  frobenius_coeffs_c2 : List Fp2R
deriving DecidableEq

/-- The quadratic-over-cubic-over-quadratic extension descriptor
`Extension2Over3Over2`. -/
structure Extension2Over3Over2 where
  non_residue : Fp6R
  field : Extension3Over2
  frobenius_coeffs_c1 : List Fp2R
deriving DecidableEq

/-- Modelled from the spec: the sliding-window exponentiation base
(`WindowExpBase::new(base, one, 8, 7)`); the model records the constructor
arguments, the precomputed table being internal to the missing source. -/
structure WindowExpBase where
  base : Fp2R
  one : Fp2R
  window : Nat
  windows : Nat
deriving DecidableEq

/-- Twist type enumeration `{D, M}`. -/
inductive TwistType where
  | D
  | M
deriving DecidableEq

/-- The base-field Weierstrass curve (`WeierstrassCurve`): field modulus,
group order reference, and the A, B coefficients. -/
structure Curve where
  p : Nat
  order : Nat
  a : Nat
  b : Nat
deriving DecidableEq

/-- The twist curve over Fp2 (`WeierstrassCurveTwist`); `nr` is the Fp
non-residue of the underlying `Extension2`. -/
structure CurveTwist where
  p : Nat
  nr : Nat
  order : Nat
  a : Fp2R
  b : Fp2R
deriving DecidableEq

/-- A decoded G1 point: two base-field coordinates. -/
structure G1Point where
  x : Nat
  y : Nat
deriving DecidableEq

/-- A decoded G2 point: two Fp2 coordinates. -/
structure G2Point where
  x : Fp2R
  y : Fp2R
deriving DecidableEq

/-- The BLS12 instance descriptor assembled for the pairing engine
(`Bls12Instance`); references become values. -/
structure Bls12Instance where
  x : Nat
  x_is_negative : Bool
  twist_type : TwistType
  base_field : Nat
  curve : Curve
  curve_twist : CurveTwist
  fp2_extension : Extension2
  fp6_extension : Extension3Over2
  fp12_extension : Extension2Over3Over2
deriving DecidableEq

/-- The external collaborators of the pipeline, kept as explicit parameters:
the three Frobenius-coefficient calculators, the two subgroup checks, the
pairing engine, and the limb-pair support table of the specialization
macro.  All are code of the repository that is not in the given source
tree (or, for the engine, explicitly out of the spec's scope). -/
structure Externals where
  frobFp2 : Extension2 → Option (Nat × Nat)
  frobFp6 : Nat → WindowExpBase → Extension3Over2 → Option (List Fp2R × List Fp2R)
  frobFp12 : Nat → WindowExpBase → Extension2Over3Over2 → Option (List Fp2R)
  subgroupG1 : Curve → G1Point → Bool
  subgroupG2 : CurveTwist → G2Point → Bool
  enginePair : Bls12Instance → List G1Point → List G2Point → Option Fp12R
  supported : Nat → Nat → Bool

/-- Replace only the pairing engine of an `Externals` bundle. -/
def Externals.withEngine (ext : Externals)
    (e : Bls12Instance → List G1Point → List G2Point → Option Fp12R) : Externals :=
  { ext with enginePair := e }

/-- Modelled from the spec: take `n` leading bytes, failing with an input
error on truncation ("absence of required trailing bytes is always an input
error"). -/
def readBytes (n : Nat) (bytes : List Nat) : Except ApiError (List Nat × List Nat) :=
  if bytes.length < n then
    .error (.InputError "Input is not long enough")
  else
    .ok (bytes.take n, bytes.drop n)

/-- Big-endian magnitude of a byte string. -/
def beNat (bytes : List Nat) : Nat :=
  bytes.foldl (fun acc b => acc * 256 + b) 0

/-- Modelled from the spec: `decode_biguint_with_length` — a one-byte length
prefix followed by that many big-endian magnitude bytes. -/
def decode_biguint_with_length (bytes : List Nat) : Except ApiError (Nat × List Nat) :=
  match bytes with
  | [] => .error (.InputError "Input is not long enough to get a length prefix")
  | l :: rest =>
    match readBytes l rest with
    | .error e => .error e
    | .ok (chunk, rest) => .ok (beNat chunk, rest)

/-- Modelled from the spec: `parse_base_field_from_encoding` — decode the
length-prefixed modulus and return (field, modulus byte length, modulus,
rest); the field object is identified with its modulus. -/
def parse_base_field_from_encoding (bytes : List Nat) :
    Except ApiError (Nat × Nat × Nat × List Nat) :=
  match bytes with
  | [] => .error (.InputError "Input is not long enough to get modulus length")
  | l :: rest =>
    match readBytes l rest with
    | .error e => .error e
    | .ok (chunk, rest) =>
      let modulus := beNat chunk
      .ok (modulus, l, modulus, rest)

/-- Modelled from the spec: `decode_fp` — a fixed-width base-field element,
sized to the modulus byte length, required to be an element of the field. -/
def decode_fp (bytes : List Nat) (modulusLen p : Nat) : Except ApiError (Nat × List Nat) :=
  match readBytes modulusLen bytes with
  | .error e => .error e
  | .ok (chunk, rest) =>
    let v := beNat chunk
    if v < p then .ok (v, rest)
    else .error (.InputError "Decoded value is not an element of the base field")

/-- Modelled from the spec: `parse_ab_in_base_field_from_encoding` — the two
curve coefficients as consecutive fixed-width base-field elements. -/
def parse_ab_in_base_field_from_encoding (bytes : List Nat) (modulusLen p : Nat) :
    Except ApiError (Nat × Nat × List Nat) :=
  match decode_fp bytes modulusLen p with
  | .error e => .error e
  | .ok (a, rest) =>
    match decode_fp rest modulusLen p with
    | .error e => .error e
    | .ok (b, rest) => .ok (a, b, rest)

/-- Modelled from the spec: `parse_group_order_from_encoding` — the
length-prefixed group order; the group object is identified with the
order. -/
def parse_group_order_from_encoding (bytes : List Nat) :
    Except ApiError (Nat × Nat × List Nat) :=
  match bytes with
  | [] => .error (.InputError "Input is not long enough to get group order length")
  | l :: rest =>
    match readBytes l rest with
    | .error e => .error e
    | .ok (chunk, rest) => .ok (beNat chunk, l, rest)

/-- Modelled from the spec: `decode_fp2` — two consecutive fixed-width
base-field elements forming an Fp2 element. -/
def decode_fp2 (bytes : List Nat) (modulusLen : Nat) (e2 : Extension2) :
    Except ApiError (Fp2R × List Nat) :=
  match decode_fp bytes modulusLen e2.p with
  | .error e => .error e
  | .ok (a, rest) =>
    match decode_fp rest modulusLen e2.p with
    | .error e => .error e
    | .ok (b, rest) => .ok (⟨a, b⟩, rest)

/-- Modelled from the spec: `decode_g1_point_from_xy` — two base-field
coordinates, no validation at decode time. -/
def decode_g1_point_from_xy (bytes : List Nat) (modulusLen : Nat) (c : Curve) :
    Except ApiError (G1Point × List Nat) :=
  match decode_fp bytes modulusLen c.p with
  | .error e => .error e
  | .ok (x, rest) =>
    match decode_fp rest modulusLen c.p with
    | .error e => .error e
    | .ok (y, rest) => .ok (⟨x, y⟩, rest)

/-- Modelled from the spec: `decode_g2_point_from_xy_in_fp2` — two Fp2
coordinates, no validation at decode time. -/
def decode_g2_point_from_xy_in_fp2 (bytes : List Nat) (modulusLen : Nat) (tw : CurveTwist) :
    Except ApiError (G2Point × List Nat) :=
  let e2 : Extension2 := ⟨tw.p, tw.nr, (0, 0)⟩
  match decode_fp2 bytes modulusLen e2 with
  | .error e => .error e
  | .ok (x, rest) =>
    match decode_fp2 rest modulusLen e2 with
    | .error e => .error e
    | .ok (y, rest) => .ok (⟨x, y⟩, rest)

/-- Decoded leading wire fields, as returned by `parse_encodings`. -/
structure ParsedEncodings where
  modulus : Nat
  modulusLen : Nat
  aBytes : List Nat
  bBytes : List Nat
  order : Nat
  orderLen : Nat
  rest : List Nat
deriving DecidableEq

/-- Modelled from the spec: `parse_encodings` — peel the length-prefixed
modulus, the two fixed-width coefficient encodings and the length-prefixed
group order off the front of the payload (after the curve-type byte). -/
def parse_encodings (bytes : List Nat) : Except ApiError ParsedEncodings :=
  match bytes with
  | [] => .error (.InputError "Input is not long enough to get modulus length")
  | l :: rest =>
    match readBytes l rest with
    | .error e => .error e
    | .ok (mchunk, rest) =>
      match readBytes l rest with
      | .error e => .error e
      | .ok (aBytes, rest) =>
        match readBytes l rest with
        | .error e => .error e
        | .ok (bBytes, rest) =>
          match rest with
          | [] => .error (.InputError "Input is not long enough to get group order length")
          | ol :: rest =>
            match readBytes ol rest with
            | .error e => .error e
            | .ok (ochunk, rest) =>
              .ok ⟨beNat mchunk, l, aBytes, bBytes, beNat ochunk, ol, rest⟩

/-- Modelled from the spec: `check_on_curve` for G1 — the affine Weierstrass
equation `y^2 = x^3 + a x + b` over the base field. -/
def check_on_curve_g1 (c : Curve) (pt : G1Point) : Bool :=
  decide ((pt.y * pt.y) % c.p = (pt.x * pt.x * pt.x + c.a * pt.x + c.b) % c.p)

/-- Modelled from the spec: `check_on_curve` for G2 — the affine Weierstrass
equation over Fp2. -/
def check_on_curve_g2 (tw : CurveTwist) (pt : G2Point) : Bool :=
  let xx := fp2Mul tw.p tw.nr pt.x pt.x
  let xxx := fp2Mul tw.p tw.nr xx pt.x
  let ax := fp2Mul tw.p tw.nr tw.a pt.x
  let rhs := fp2Add tw.p (fp2Add tw.p xxx ax) tw.b
  decide (fp2Mul tw.p tw.nr pt.y pt.y = rhs)

/-- The twist-type-dependent B coefficient of the twist curve, as built at
lines 176–189 of `pairing_ops.rs`: D-type scales the inverse of the Fp2
non-residue by the base B, M-type scales the Fp2 non-residue itself. -/
def buildTwistB (p : Nat) (fp2_non_residue fp2_non_residue_inv : Fp2R) (b_fp : Nat) :
    TwistType → Fp2R
  | .D => fp2MulByFp p fp2_non_residue_inv b_fp
  | .M => fp2MulByFp p fp2_non_residue b_fp

/-- The per-request state after the setup phase of `pair_bls12`
(lines 93–212 of `pairing_ops.rs`): everything built before the point
loop runs. -/
structure SetupState where
  p : Nat
  modulusLen : Nat
  modulus : Nat
  g1_curve : Curve
  g2_curve : CurveTwist
  extension_2 : Extension2
  extension_6 : Extension3Over2
  extension_12 : Extension2Over3Over2
  x : Nat
  x_is_negative : Bool
  twist_type : TwistType
  num_pairs : Nat
  rest : List Nat
deriving DecidableEq

/-- The point-decoding-and-validation loop of `pair_bls12`
(lines 219–234): for each declared pair decode one G1 and one G2 point,
check both on-curve, then both subgroup memberships, and abort with an
input error on the first failure; on success return the accumulated
operand lists in order. -/
def processPairs (ext : Externals) (modulusLen : Nat) (g1c : Curve) (g2c : CurveTwist) :
    Nat → List Nat → Except ApiError (List G1Point × List G2Point)
  | 0, _ => .ok ([], [])
  | n + 1, bytes =>
    match decode_g1_point_from_xy bytes modulusLen g1c with
    | .error e => .error e
    | .ok (g1, rest) =>
      match decode_g2_point_from_xy_in_fp2 rest modulusLen g2c with
      | .error e => .error e
      | .ok (g2, rest) =>
        if !(check_on_curve_g1 g1c g1 && check_on_curve_g2 g2c g2) then
          .error (.InputError "G1 or G2 point is not on curve")
        else if !(ext.subgroupG1 g1c g1 && ext.subgroupG2 g2c g2) then
          .error (.InputError "G1 or G2 point is not in the expected subgroup")
        else
          match processPairs ext modulusLen g1c g2c n rest with
          | .error e => .error e
          | .ok (g1s, g2s) => .ok (g1 :: g1s, g2 :: g2s)

/-- The setup phase of `pair_bls12` (lines 93–212): decode the base field,
the curve coefficients (A must be zero), the group order, the Fp2 and Fp6
non-residues; build the three tower extensions with zeroed Frobenius
coefficients, patch in the computed coefficients (failures mapped exactly
as in the source); read the twist type, build the twist's B coefficient,
the twist curve, the loop parameter, its sign and the pair count. -/
def pairBls12Setup (ext : Externals) (bytes : List Nat) : Except ApiError SetupState :=
  match parse_base_field_from_encoding bytes with
  | .error e => .error e
  | .ok (p, modulusLen, modulus, rest) =>
    match parse_ab_in_base_field_from_encoding rest modulusLen p with
    | .error e => .error e
    | .ok (a_fp, b_fp, rest) =>
      if a_fp ≠ 0 then
        .error (.UnknownParameter "A parameter must be zero for BLS12 curve")
      else
        match parse_group_order_from_encoding rest with
        | .error e => .error e
        | .ok (order, _order_len, rest) =>
          let g1_curve : Curve := ⟨p, order, a_fp, b_fp⟩
          match decode_fp rest modulusLen p with
          | .error e => .error e
          | .ok (fp_non_residue, rest) =>
            match ext.frobFp2 ⟨p, fp_non_residue, (0, 0)⟩ with
            | none => .error (.InputError "Failed to calculate Frobenius coeffs for Fp2")
            | some coeffs =>
              let extension_2 : Extension2 := ⟨p, fp_non_residue, coeffs⟩
              match decode_fp2 rest modulusLen extension_2 with
              | .error e => .error e
              | .ok (fp2_non_residue, rest) =>
                match rest with
                | [] => .error (.InputError "Input is not long enough to get twist type")
                | twist_byte :: rest =>
                  if twist_byte = TWIST_TYPE_D ∨ twist_byte = TWIST_TYPE_M then
                    let twist_type : TwistType :=
                      if twist_byte = TWIST_TYPE_D then .D else .M
                    let zeros6 : List Fp2R := List.replicate 6 fp2Zero
                    let exp_base : WindowExpBase := ⟨fp2_non_residue, fp2One p, 8, 7⟩
                    match ext.frobFp6 modulus exp_base
                        ⟨fp2_non_residue, extension_2, zeros6, zeros6⟩ with
                    | none =>
                      .error (.UnknownParameter "Can not calculate Frobenius coefficients for Fp6")
                    | some (coeffs_c1, coeffs_c2) =>
                      let extension_6 : Extension3Over2 :=
                        ⟨fp2_non_residue, extension_2, coeffs_c1, coeffs_c2⟩
                      let zeros12 : List Fp2R := List.replicate 12 fp2Zero
                      match ext.frobFp12 modulus exp_base ⟨fp6Zero, extension_6, zeros12⟩ with
                      | none =>
                        .error (.InputError "Can not calculate Frobenius coefficients for Fp12")
                      | some coeffs12 =>
                        let extension_12 : Extension2Over3Over2 :=
                          ⟨fp6Zero, extension_6, coeffs12⟩
                        match fp2Inverse p fp_non_residue fp2_non_residue with
                        | none => .error (.UnexpectedZero "Fp2 non-residue must be invertible")
                        | some fp2_non_residue_inv =>
                          let b_fp2 :=
                            buildTwistB p fp2_non_residue fp2_non_residue_inv b_fp twist_type
                          let a_fp2 := fp2Zero
                          let g2_curve : CurveTwist :=
                            ⟨p, fp_non_residue, order, a_fp2, b_fp2⟩
                          match decode_biguint_with_length rest with
                          | .error e => .error e
                          | .ok (x, rest) =>
                            match rest with
                            | [] =>
                              .error (.InputError "Input is not long enough to get X sign encoding")
                            | sign_byte :: rest =>
                              if sign_byte = SIGN_PLUS ∨ sign_byte = SIGN_MINUS then
                                let x_is_negative : Bool := sign_byte = SIGN_MINUS
                                match rest with
                                | [] =>
                                  .error (.InputError "Input is not long enough to get number of pairs")
                                | num_pairs :: rest =>
                                  .ok ⟨p, modulusLen, modulus, g1_curve, g2_curve,
                                       extension_2, extension_6, extension_12,
                                       x, x_is_negative, twist_type, num_pairs, rest⟩
                              else
                                .error (.InputError "X sign is not encoded properly")
                  else
                    .error (.UnknownParameter "Unknown twist type supplied")

/-- The final phase of `pair_bls12` (lines 236–262): assemble the BLS12
instance descriptor, invoke the pairing engine on the validated operand
lists, and encode the comparison of the returned Fp12 element with
`Fp12::one` as a single output byte. -/
def pairBls12Finalize (ext : Externals) (st : SetupState)
    (g1_points : List G1Point) (g2_points : List G2Point) : Except ApiError (List Nat) :=
  let engine : Bls12Instance :=
    ⟨st.x, st.x_is_negative, st.twist_type, st.p, st.g1_curve, st.g2_curve,
     st.extension_2, st.extension_6, st.extension_12⟩
  match ext.enginePair engine g1_points g2_points with
  | none => .error (.UnknownParameter "Pairing engine returned no value")
  | some pairing_result =>
    if pairing_result = fp12One st.p then .ok [1] else .ok [0]

/-- `PairingApiImplementation::pair_bls12` (lines 92–263): setup, point
loop, finalize. -/
def pairBls12 (ext : Externals) (bytes : List Nat) : Except ApiError (List Nat) :=
  match pairBls12Setup ext bytes with
  | .error e => .error e
  | .ok st =>
    match processPairs ext st.modulusLen st.g1_curve st.g2_curve st.num_pairs st.rest with
    | .error e => .error e
    | .ok (g1_points, g2_points) => pairBls12Finalize ext st g1_points g2_points

/-- `PairingApiImplementation::pair` (lines 72–86): split off the curve-type
byte; dispatch to `pair_bls12` on the BLS12 tag, and hit the
`unimplemented!` panic on any other tag. -/
def pairImpl (ext : Externals) (bytes : List Nat) : RunResult (List Nat) :=
  match bytes with
  | [] => .error (.InputError "Input should be longer than curve type encoding")
  | curve_type :: rest =>
    if curve_type = BLS12 then
      liftResult (pairBls12 ext rest)
    else
      .panic "Not implemented for not BLS12 curves"

/-- Big-integer bit length with explicit fuel (structural recursion). -/
def bitLengthAux : Nat → Nat → Nat
  | 0, _ => 0
  | fuel + 1, n => if n = 0 then 0 else bitLengthAux fuel (n / 2) + 1

/-- `BigUint::bits`: the bit length of a big integer (`0` has bit length
`0`). -/
def bitLength (n : Nat) : Nat := bitLengthAux n n

/-- Modelled from the spec: the `expand_for_modulus_and_group_limbs!`
specialization macro (`api_specialization_macro.rs` is not in the source
tree) — a lookup over a finite pre-enumerated set of supported
(modulus limbs, order limbs) combinations, routing the request to the
matching instantiation and failing with an input error outside the
supported range.  The supported set is the `supported` table of the
`Externals` bundle. -/
def expand_for_modulus_and_group_limbs (ext : Externals) (modulusLimbs orderLimbs : Nat)
    (bytes : List Nat) : RunResult (List Nat) :=
  if ext.supported modulusLimbs orderLimbs then
    pairImpl ext bytes
  else
    .error (.InputError "Limb count is not supported")

/-- `PublicPairingApi::pair` (lines 46–59): check the curve-type byte is
present, peek the modulus and group order with `parse_encodings`, compute
the limb count of each as `bits/64 + 1`, and specialize the rest of the
pipeline over that pair of limb counts. -/
def publicPair (ext : Externals) (bytes : List Nat) : RunResult (List Nat) :=
  if bytes.length < CURVE_TYPE_LENGTH then
    .error (.InputError "Input should be longer than curve type encoding")
  else
    match parse_encodings (bytes.drop CURVE_TYPE_LENGTH) with
    | .error e => .error e
    | .ok enc =>
      let modulus_limbs := bitLength enc.modulus / 64 + 1
      let order_limbs := bitLength enc.order / 64 + 1
      expand_for_modulus_and_group_limbs ext modulus_limbs order_limbs bytes

/-- Result of one differential-harness run: either the assertions passed, or
the run halted with a fatal assertion failure after printing the
hex-encoded input and both outputs. -/
inductive HarnessResult where
  | passed
  | assertionFailure (hexInput : String) (message : String)
deriving DecidableEq

/-- One hexadecimal digit character. -/
def hexChar (n : Nat) : Char :=
  Char.ofNat (if n < 10 then 48 + n else 87 + n)

/-- `hex::encode` of a byte string. -/
def hexEncode (bytes : List Nat) : String :=
  String.mk (bytes.flatMap (fun b => [hexChar (b / 16), hexChar (b % 16)]))

/-- Success/failure-and-output agreement of the two backends on one input:
both fail, or both succeed with identical output bytes. -/
def agreesOn {ε₁ ε₂ : Type} : Except ε₁ (List Nat) → Except ε₂ (List Nat) → Bool
  | .error _, .error _ => true
  | .ok n, .ok c => decide (n = c)
  | _, _ => false

/-- The differential harness `fuzz_target_compare.rs` (lines 7–33): run the
native backend and the C++ backend on the same input; if exactly one fails,
or both succeed with different output bytes, print the hex-encoded input
and both outputs and halt with a fatal assertion failure (a panic);
otherwise pass. -/
def fuzzTargetCompare {ε₁ ε₂ : Type}
    (native : List Nat → Except ε₁ (List Nat)) (cpp : List Nat → Except ε₂ (List Nat))
    (data : List Nat) : HarnessResult :=
  match native data, cpp data with
  | .error _, .error _ => .passed
  | .error _, .ok c =>
    .assertionFailure (hexEncode data)
      ("Native result returned error, while C++ returned " ++ hexEncode c)
  | .ok n, .error _ =>
    .assertionFailure (hexEncode data)
      ("Native result = " ++ hexEncode n ++ ", while C++ returned error")
  | .ok n, .ok c =>
    if n = c then .passed
    else
      .assertionFailure (hexEncode data)
        ("Native result = " ++ hexEncode n ++ ", C++ result = " ++ hexEncode c)

/-- States of the point loop reachable from a starting state by consuming
fully valid pairs: `(n, bytes)` reaches `(n', bytes')` when `n - n'` pairs
decode correctly, all pass the on-curve check and all pass the subgroup
check, leaving `bytes'` and `n'` pairs still to process. -/
inductive LoopReaches (ext : Externals) (modulusLen : Nat) (g1c : Curve) (g2c : CurveTwist) :
    Nat → List Nat → Nat → List Nat → Prop where
  | refl (n : Nat) (bytes : List Nat) : LoopReaches ext modulusLen g1c g2c n bytes n bytes
  | step {n n' : Nat} {bytes r1 r2 bytes' : List Nat} {g1 : G1Point} {g2 : G2Point} :
      decode_g1_point_from_xy bytes modulusLen g1c = .ok (g1, r1) →
      decode_g2_point_from_xy_in_fp2 r1 modulusLen g2c = .ok (g2, r2) →
      (check_on_curve_g1 g1c g1 && check_on_curve_g2 g2c g2) = true →
      (ext.subgroupG1 g1c g1 && ext.subgroupG2 g2c g2) = true →
      LoopReaches ext modulusLen g1c g2c n r2 n' bytes' →
      LoopReaches ext modulusLen g1c g2c (n + 1) bytes n' bytes'

/-- Whether an API result is an `UnknownParameter` error. -/
def isUnknownParameterResult : Except ApiError (List Nat) → Bool
  | .error (.UnknownParameter _) => true
  | _ => false

/-- A concrete `Externals` bundle for evaluating the pipeline on test
inputs: every external computation succeeds, every limb pair is supported,
both subgroup checks accept, and the engine returns `Fp12::one`. -/
def testExternals : Externals where
  frobFp2 := fun _ => some (0, 0)
  frobFp6 := fun _ _ _ => some (List.replicate 6 fp2Zero, List.replicate 6 fp2Zero)
  frobFp12 := fun _ _ _ => some (List.replicate 12 fp2Zero)
  subgroupG1 := fun _ _ => true
  subgroupG2 := fun _ _ => true
  enginePair := fun inst _ _ => some (fp12One inst.base_field)
  supported := fun _ _ => true

/-- `testExternals` with a G1 subgroup check that rejects every point. -/
def subgroupRejectExternals : Externals :=
  { testExternals with subgroupG1 := fun _ _ => false }

/-- `testExternals` with a failing Fp2 Frobenius-coefficient calculator. -/
def failFrobFp2Externals : Externals :=
  { testExternals with frobFp2 := fun _ => none }

/-- `testExternals` with a failing Fp6 Frobenius-coefficient calculator. -/
def failFrobFp6Externals : Externals :=
  { testExternals with frobFp6 := fun _ _ _ => none }

/-- `testExternals` with a failing Fp12 Frobenius-coefficient calculator. -/
def failFrobFp12Externals : Externals :=
  { testExternals with frobFp12 := fun _ _ _ => none }

/-- `testExternals` with an engine that returns an element other than
`Fp12::one`. -/
def notOneEngineExternals : Externals :=
  { testExternals with enginePair := fun _ _ _ => some ⟨fp6Zero, fp6Zero⟩ }

/-- A complete well-formed `pair_bls12` payload (after the curve-type byte)
over the 5-element base field: modulus 5, A = 0, B = 1, order 7, Fp
non-residue 2, Fp2 non-residue (2, 0), D twist, x = 3 with plus sign,
zero pairs. -/
def zeroPairsBytes : List Nat := [1, 5, 0, 1, 1, 7, 2, 2, 0, 1, 1, 3, 0, 0]

/-- The same parameters as `zeroPairsBytes` with one operand pair: the G1
point (0, 1) and the G2 point ((0,0), (0,2)), both of which satisfy their
curve equations. -/
def onePairBytes : List Nat := [1, 5, 0, 1, 1, 7, 2, 2, 0, 1, 1, 3, 0, 1, 0, 1, 0, 0, 0, 2]

/-- The setup state produced by running `pairBls12Setup` on `onePairBytes`
(the subgroup checks play no role in setup). -/
def onePairState : SetupState where
  p := 5
  modulusLen := 1
  modulus := 5
  g1_curve := ⟨5, 7, 0, 1⟩
  g2_curve := ⟨5, 2, 7, ⟨0, 0⟩, ⟨3, 0⟩⟩
  extension_2 := ⟨5, 2, (0, 0)⟩
  extension_6 := ⟨⟨2, 0⟩, ⟨5, 2, (0, 0)⟩, List.replicate 6 fp2Zero, List.replicate 6 fp2Zero⟩
  extension_12 := ⟨fp6Zero,
    ⟨⟨2, 0⟩, ⟨5, 2, (0, 0)⟩, List.replicate 6 fp2Zero, List.replicate 6 fp2Zero⟩,
    List.replicate 12 fp2Zero⟩
  x := 3
  x_is_negative := false
  twist_type := .D
  num_pairs := 1
  rest := [0, 1, 0, 0, 0, 2]

/-- A payload prefix that stops right after the Fp non-residue, so the next
step of the pipeline is the Fp2 Frobenius-coefficient computation. -/
def frobStageBytes : List Nat := [1, 5, 0, 1, 1, 7, 2]

/-- A payload prefix that stops right after the twist-type byte (D), so the
next steps of the pipeline are the Fp6 and Fp12 Frobenius-coefficient
computations. -/
def fp6StageBytes : List Nat := [1, 5, 0, 1, 1, 7, 2, 2, 0, 1]

/-- A payload whose decoded A coefficient is the nonzero field element 2. -/
def nonzeroABytes : List Nat := [1, 5, 2, 1]

/-- A payload whose twist-type byte (9) is neither the D tag nor the M
tag. -/
def badTwistBytes : List Nat := [1, 5, 0, 1, 1, 7, 2, 2, 0, 9]

/-- A payload with an M twist whose decoded Fp2 non-residue is (0, 0),
which has no multiplicative inverse. -/
def zeroNonResidueBytes : List Nat := [1, 5, 0, 1, 1, 7, 2, 0, 0, 2]

/-- A full-payload prefix for the public entry point with a non-BLS12
curve-type byte (2) but well-formed leading encodings. -/
def wrongCurveTypeBytes : List Nat := [2, 1, 5, 0, 0, 1, 7]

/-- `zeroPairsBytes` with the curve-type byte and well-formed leading
encodings, for the public entry point. -/
def publicPairBytes : List Nat := [1, 1, 5, 0, 0, 1, 7]

/-- A found Fp2 inverse really is a multiplicative inverse. -/
theorem fp2Inverse_mul {p nr : Nat} {x y : Fp2R}
    (h : fp2Inverse p nr x = some y) : fp2Mul p nr x y = fp2One p := by
  unfold fp2Inverse at h
  have hp := List.find?_some h
  simp only [decide_eq_true_eq] at hp
  exact hp

/-- If an Fp2 element has no multiplicative inverse at all, the inverse
computation returns `none`. -/
theorem fp2Inverse_eq_none {p nr : Nat} {x : Fp2R}
    (h : ¬ ∃ y, fp2Mul p nr x y = fp2One p) : fp2Inverse p nr x = none := by
  cases hf : fp2Inverse p nr x with
  | none => rfl
  | some y =>
    unfold fp2Inverse at hf
    have hp := List.find?_some hf
    simp only [decide_eq_true_eq] at hp
    exact absurd ⟨y, hp⟩ h

/-- The setup phase never consults the pairing engine. -/
theorem pairBls12Setup_withEngine (ext : Externals)
    (e : Bls12Instance → List G1Point → List G2Point → Option Fp12R) (bytes : List Nat) :
    pairBls12Setup (ext.withEngine e) bytes = pairBls12Setup ext bytes := by
  cases ext; rfl

/-- The point loop never consults the pairing engine. -/
theorem processPairs_withEngine (ext : Externals)
    (e : Bls12Instance → List G1Point → List G2Point → Option Fp12R)
    (mlen : Nat) (g1c : Curve) (g2c : CurveTwist) (n : Nat) (bytes : List Nat) :
    processPairs (ext.withEngine e) mlen g1c g2c n bytes
      = processPairs ext mlen g1c g2c n bytes := by
  induction n generalizing bytes with
  | zero => rfl
  | succ k ih =>
    unfold processPairs
    cases hd1 : decode_g1_point_from_xy bytes mlen g1c with
    | error e1 => rfl
    | ok v1 =>
      obtain ⟨g1, r1⟩ := v1
      simp only []
      cases hd2 : decode_g2_point_from_xy_in_fp2 r1 mlen g2c with
      | error e2 => rfl
      | ok v2 =>
        obtain ⟨g2, r2⟩ := v2
        simp only []
        have hsg : (ext.withEngine e).subgroupG1 = ext.subgroupG1 := by cases ext; rfl
        have hsg2 : (ext.withEngine e).subgroupG2 = ext.subgroupG2 := by cases ext; rfl
        rw [hsg, hsg2, ih]

/-- If the loop fails from some reachable state, it fails with the same
error from the start. -/
theorem loopReaches_error (ext : Externals) (mlen : Nat) (g1c : Curve) (g2c : CurveTwist)
    {n bytes n' bytes'} (hreach : LoopReaches ext mlen g1c g2c n bytes n' bytes')
    {e : ApiError} (herr : processPairs ext mlen g1c g2c n' bytes' = .error e) :
    processPairs ext mlen g1c g2c n bytes = .error e := by
  induction hreach with
  | refl n bytes => exact herr
  | step hd1 hd2 honc hsub _ ih =>
    unfold processPairs
    rw [hd1]
    simp only []
    rw [hd2]
    simp only []
    rw [honc, hsub]
    rw [ih herr]
    simp

/-- A pair whose points decode and pass the on-curve check but fail the
subgroup check makes the loop return the subgroup input error. -/
theorem processPairs_subgroup_error (ext : Externals) (mlen : Nat)
    (g1c : Curve) (g2c : CurveTwist) (n : Nat) (bytes r1 r2 : List Nat)
    (g1 : G1Point) (g2 : G2Point)
    (hd1 : decode_g1_point_from_xy bytes mlen g1c = .ok (g1, r1))
    (hd2 : decode_g2_point_from_xy_in_fp2 r1 mlen g2c = .ok (g2, r2))
    (honc : (check_on_curve_g1 g1c g1 && check_on_curve_g2 g2c g2) = true)
    (hsub : (ext.subgroupG1 g1c g1 && ext.subgroupG2 g2c g2) = false) :
    processPairs ext mlen g1c g2c (n + 1) bytes
      = .error (.InputError "G1 or G2 point is not in the expected subgroup") := by
  unfold processPairs
  rw [hd1]
  simp only []
  rw [hd2]
  simp only []
  rw [honc, hsub]
  simp

/-- Fp2 multiplication is commutative. -/
theorem fp2Mul_comm (p nr : Nat) (x y : Fp2R) : fp2Mul p nr x y = fp2Mul p nr y x := by
  simp only [fp2Mul, Fp2R.mk.injEq]
  constructor <;> (congr 1; ring)

/-- Scaling by a base-field element commutes with Fp2 multiplication. -/
theorem fp2Mul_mulByFp (p nr : Nat) (x y : Fp2R) (b : Nat) :
    fp2Mul p nr (fp2MulByFp p x b) y = fp2MulByFp p (fp2Mul p nr x y) b := by
  simp only [fp2Mul, fp2MulByFp, Fp2R.mk.injEq]
  constructor
  · have h1 : (x.c0 * b % p) * y.c0 ≡ x.c0 * b * y.c0 [MOD p] :=
      (Nat.mod_modEq _ p).mul_right _
    have h2 : nr * ((x.c1 * b % p) * y.c1) ≡ nr * (x.c1 * b * y.c1) [MOD p] :=
      ((Nat.mod_modEq _ p).mul_right _).mul_left _
    have hR : ((x.c0 * y.c0 + nr * (x.c1 * y.c1)) % p) * b
        ≡ (x.c0 * y.c0 + nr * (x.c1 * y.c1)) * b [MOD p] :=
      (Nat.mod_modEq _ p).mul_right _
    have hmid : x.c0 * b * y.c0 + nr * (x.c1 * b * y.c1)
        = (x.c0 * y.c0 + nr * (x.c1 * y.c1)) * b := by ring
    have hR' := hR.symm
    rw [← hmid] at hR'
    exact (h1.add h2).trans hR'
  · have h1 : (x.c0 * b % p) * y.c1 ≡ x.c0 * b * y.c1 [MOD p] :=
      (Nat.mod_modEq _ p).mul_right _
    have h2 : (x.c1 * b % p) * y.c0 ≡ x.c1 * b * y.c0 [MOD p] :=
      (Nat.mod_modEq _ p).mul_right _
    have hR : ((x.c0 * y.c1 + x.c1 * y.c0) % p) * b
        ≡ (x.c0 * y.c1 + x.c1 * y.c0) * b [MOD p] :=
      (Nat.mod_modEq _ p).mul_right _
    have hmid : x.c0 * b * y.c1 + x.c1 * b * y.c0 = (x.c0 * y.c1 + x.c1 * y.c0) * b := by
      ring
    have hR' := hR.symm
    rw [← hmid] at hR'
    exact (h1.add h2).trans hR'

/-- Scaling the Fp2 one by a reduced base-field element lifts that element
into Fp2. -/
theorem fp2MulByFp_one (p b : Nat) (hb : b < p) : fp2MulByFp p (fp2One p) b = ⟨b, 0⟩ := by
  simp only [fp2MulByFp, fp2One, Fp2R.mk.injEq]
  constructor
  · have h : (1 % p) * b ≡ 1 * b [MOD p] := (Nat.mod_modEq 1 p).mul_right b
    have h' := h.trans (by rw [one_mul])
    calc (1 % p) * b % p = b % p := h'
    _ = b := Nat.mod_eq_of_lt hb
  · simp

/-- Bit length of zero is zero for any fuel. -/
theorem bitLengthAux_zero (fuel : Nat) : bitLengthAux fuel 0 = 0 := by
  cases fuel <;> rfl

/-- With enough fuel, `bitLengthAux` computes the binary length: the input
is below `2 ^ length`, and (when positive) at least `2 ^ (length - 1)`. -/
theorem bitLengthAux_spec (fuel : Nat) : ∀ n, n ≤ fuel →
    n < 2 ^ bitLengthAux fuel n ∧ (1 ≤ n → 2 ^ (bitLengthAux fuel n - 1) ≤ n) := by
  induction fuel with
  | zero =>
    intro n hn
    obtain rfl : n = 0 := by omega
    exact ⟨by simp [bitLengthAux], by omega⟩
  | succ k ih =>
    intro n hn
    by_cases h0 : n = 0
    · subst h0
      exact ⟨by simp [bitLengthAux], by omega⟩
    · have hrec : bitLengthAux (k + 1) n = bitLengthAux k (n / 2) + 1 := by
        simp [bitLengthAux, h0]
      obtain ⟨ha, hb⟩ := ih (n / 2) (by omega)
      rw [hrec]
      constructor
      · have h2 : n ≤ 2 * (n / 2) + 1 := by omega
        have h3 : 2 * (n / 2) + 1 < 2 * 2 ^ bitLengthAux k (n / 2) := by omega
        calc n ≤ 2 * (n / 2) + 1 := h2
        _ < 2 * 2 ^ bitLengthAux k (n / 2) := h3
        _ = 2 ^ (bitLengthAux k (n / 2) + 1) := by rw [pow_succ]; ring
      · intro _
        by_cases hh : n / 2 = 0
        · rw [hh, bitLengthAux_zero]
          simpa using by omega
        · have hlow := hb (by omega)
          have hL1 : 1 ≤ bitLengthAux k (n / 2) := by
            by_contra hc
            have hz : bitLengthAux k (n / 2) = 0 := by omega
            rw [hz] at ha
            simp at ha
            omega
          have heq : bitLengthAux k (n / 2) + 1 - 1 = (bitLengthAux k (n / 2) - 1) + 1 := by
            omega
          rw [heq, pow_succ]
          have hmul : 2 ^ (bitLengthAux k (n / 2) - 1) * 2 ≤ (n / 2) * 2 :=
            Nat.mul_le_mul_right 2 hlow
          omega

/-- The model's `BigUint::bits` agrees with Mathlib's binary length
`Nat.size`. -/
theorem bitLength_eq_size (n : Nat) : bitLength n = Nat.size n := by
  obtain ⟨hlt, hge⟩ := bitLengthAux_spec n n le_rfl
  have h1 : Nat.size n ≤ bitLength n := Nat.size_le.mpr hlt
  by_cases h0 : n = 0
  · subst h0
    simp [bitLength, bitLengthAux_zero, Nat.size_zero]
  · have h2 : bitLength n ≤ Nat.size n := by
      by_contra hc
      push_neg at hc
      have hn2 : n < 2 ^ Nat.size n := Nat.lt_size_self n
      have hge' := hge (by omega)
      have hcmp : 2 ^ (bitLength n - 1) < 2 ^ Nat.size n := by
        calc 2 ^ (bitLength n - 1) ≤ n := hge'
        _ < 2 ^ Nat.size n := hn2
      have hlt2 : bitLength n - 1 < Nat.size n :=
        (Nat.pow_lt_pow_iff_right (by omega)).mp hcmp
      omega
    omega

/-- C1 (code bug): the claim says a curve-type byte other than the BLS12
tag yields an `InputError`, but the code's `unimplemented!` arm
(`pairing_ops.rs` line 83) panics instead: the implementation-level `pair`
panics on the one-byte input `[2]`, and the public entry point panics on a
payload with well-formed leading encodings and curve-type byte 2.  (The
spec's design notes themselves flag this unreachable-path panic as needing
to become a returned error.) -/
theorem claim_c1_wrong_curve_type_panics :
    pairImpl testExternals [2] = .panic "Not implemented for not BLS12 curves" ∧
    publicPair testExternals wrongCurveTypeBytes
      = .panic "Not implemented for not BLS12 curves" := by
  constructor <;> rfl

/-- C2: every accepted request produces exactly one byte, 0 or 1, and the
byte is 1 exactly when the Fp12 element returned by the pairing engine
equals the multiplicative identity of Fp12. -/
theorem claim_c2_output_single_boolean_byte (ext : Externals) (bytes out : List Nat)
    (h : pairImpl ext bytes = .ok out) :
    (out = [1] ∨ out = [0]) ∧
    ∃ inst g1s g2s res, ext.enginePair inst g1s g2s = some res ∧
      (out = [1] ↔ res = fp12One inst.base_field) := by
  cases bytes with
  | nil => exact absurd h (by simp [pairImpl])
  | cons ct rest =>
    simp only [pairImpl] at h
    by_cases hct : ct = BLS12
    · rw [if_pos hct] at h
      cases hb : pairBls12 ext rest with
      | error e => rw [hb] at h; exact absurd h (by simp [liftResult])
      | ok v =>
        rw [hb] at h
        simp only [liftResult] at h
        obtain rfl : v = out := by cases h; rfl
        unfold pairBls12 at hb
        cases hst : pairBls12Setup ext rest with
        | error e => rw [hst] at hb; exact absurd hb (by simp)
        | ok st =>
          rw [hst] at hb
          simp only [] at hb
          cases hpp : processPairs ext st.modulusLen st.g1_curve st.g2_curve
              st.num_pairs st.rest with
          | error e => rw [hpp] at hb; exact absurd hb (by simp)
          | ok pts =>
            rw [hpp] at hb
            obtain ⟨g1s, g2s⟩ := pts
            simp only [] at hb
            unfold pairBls12Finalize at hb
            simp only [] at hb
            cases he : ext.enginePair
                ⟨st.x, st.x_is_negative, st.twist_type, st.p, st.g1_curve, st.g2_curve,
                 st.extension_2, st.extension_6, st.extension_12⟩ g1s g2s with
            | none => rw [he] at hb; exact absurd hb (by simp)
            | some res =>
              rw [he] at hb
              simp only [] at hb
              by_cases hres : res = fp12One st.p
              · rw [if_pos hres] at hb
                obtain rfl : v = [1] := by cases hb; rfl
                refine ⟨Or.inl rfl, _, g1s, g2s, res, he, ?_⟩
                simp [hres]
              · rw [if_neg hres] at hb
                obtain rfl : v = [0] := by cases hb; rfl
                refine ⟨Or.inr rfl, _, g1s, g2s, res, he, ?_⟩
                simp [hres]
    · rw [if_neg hct] at h
      exact absurd h (by simp)

/-- C2 witness: a complete zero-pair request over the 5-element field is
accepted with output byte 1 (the test engine returns `Fp12::one`). -/
theorem claim_c2_witness :
    (([1] : List Nat) = [1] ∨ ([1] : List Nat) = [0]) ∧
    ∃ inst g1s g2s res, testExternals.enginePair inst g1s g2s = some res ∧
      (([1] : List Nat) = [1] ↔ res = fp12One inst.base_field) :=
  claim_c2_output_single_boolean_byte testExternals (BLS12 :: zeroPairsBytes) [1] (by rfl)

/-- C3: a decoded operand pair that passes the on-curve checks but fails a
subgroup check, at any reachable position of the point loop, makes the
whole request fail with the subgroup `InputError`, and the result is the
same for every possible pairing engine — no point list is ever handed to
the engine. -/
theorem claim_c3_subgroup_failure_aborts (ext : Externals) (bytes : List Nat)
    (st : SetupState) (n' : Nat) (rest' r1 r2 : List Nat) (g1 : G1Point) (g2 : G2Point)
    (hst : pairBls12Setup ext bytes = .ok st)
    (hreach : LoopReaches ext st.modulusLen st.g1_curve st.g2_curve
      st.num_pairs st.rest (n' + 1) rest')
    (hd1 : decode_g1_point_from_xy rest' st.modulusLen st.g1_curve = .ok (g1, r1))
    (hd2 : decode_g2_point_from_xy_in_fp2 r1 st.modulusLen st.g2_curve = .ok (g2, r2))
    (honc : (check_on_curve_g1 st.g1_curve g1 && check_on_curve_g2 st.g2_curve g2) = true)
    (hsub : (ext.subgroupG1 st.g1_curve g1 && ext.subgroupG2 st.g2_curve g2) = false) :
    ∀ e, pairBls12 (ext.withEngine e) bytes
      = .error (.InputError "G1 or G2 point is not in the expected subgroup") := by
  intro e
  have herr1 := processPairs_subgroup_error ext st.modulusLen st.g1_curve st.g2_curve
    n' rest' r1 r2 g1 g2 hd1 hd2 honc hsub
  have herr := loopReaches_error ext st.modulusLen st.g1_curve st.g2_curve hreach herr1
  unfold pairBls12
  rw [pairBls12Setup_withEngine, hst]
  simp only []
  rw [processPairs_withEngine, herr]

/-- C3 witness: a one-pair request whose points satisfy their curve
equations but are rejected by the subgroup check fails with the subgroup
input error even under an engine that never answers. -/
theorem claim_c3_witness :
    pairBls12 (subgroupRejectExternals.withEngine (fun _ _ _ => none)) onePairBytes
      = .error (.InputError "G1 or G2 point is not in the expected subgroup") :=
  claim_c3_subgroup_failure_aborts subgroupRejectExternals onePairBytes onePairState
    0 [0, 1, 0, 0, 0, 2] [0, 0, 0, 2] [] ⟨0, 1⟩ ⟨⟨0, 0⟩, ⟨0, 2⟩⟩
    (by rfl) (LoopReaches.refl 1 [0, 1, 0, 0, 0, 2]) (by rfl) (by rfl)
    (by decide) (by rfl) (fun _ _ _ => none)

/-- C4: the differential harness passes exactly when the two backends agree
(both fail, or both succeed with byte-identical output), and any
disagreement halts the run as a fatal assertion failure whose diagnostic
starts from the hex-encoded input; under the spec's identical-semantics
reading of the two backends, agreement — and hence a passing run — holds
for every input byte string. -/
theorem claim_c4_differential_harness {ε₁ ε₂ : Type}
    (native : List Nat → Except ε₁ (List Nat)) (cpp : List Nat → Except ε₂ (List Nat))
    (data : List Nat) :
    (agreesOn (native data) (cpp data) = true → fuzzTargetCompare native cpp data = .passed) ∧
    (agreesOn (native data) (cpp data) = false →
      ∃ m, fuzzTargetCompare native cpp data = .assertionFailure (hexEncode data) m) := by
  unfold fuzzTargetCompare agreesOn
  cases hn : native data with
  | error e1 =>
    cases hc : cpp data with
    | error e2 => exact ⟨fun _ => rfl, fun hcon => by simp at hcon⟩
    | ok c => exact ⟨fun hcon => by simp at hcon, fun _ => ⟨_, rfl⟩⟩
  | ok n =>
    cases hc : cpp data with
    | error e2 => exact ⟨fun hcon => by simp at hcon, fun _ => ⟨_, rfl⟩⟩
    | ok c =>
      by_cases heq : n = c
      · refine ⟨fun _ => by simp [heq], fun hcon => by simp [heq] at hcon⟩
      · exact ⟨fun hcon => by simp [heq] at hcon,
          fun _ => ⟨"Native result = " ++ hexEncode n ++ ", C++ result = " ++ hexEncode c,
            by simp [heq]⟩⟩

/-- C4 witness: two agreeing backends (both failing) pass, and two
disagreeing backends (different success bytes) halt with an assertion
failure carrying the hex-encoded input. -/
theorem claim_c4_witness :
    fuzzTargetCompare (fun _ => (.error (ApiError.InputError "native failure")
        : Except ApiError (List Nat)))
      (fun _ => (.error "cpp failure" : Except String (List Nat))) [0] = .passed ∧
    ∃ m, fuzzTargetCompare (fun _ => (.ok [1] : Except ApiError (List Nat)))
      (fun _ => (.ok [0] : Except String (List Nat))) [171, 1]
        = .assertionFailure (hexEncode [171, 1]) m :=
  ⟨(claim_c4_differential_harness (fun _ => .error (ApiError.InputError "native failure"))
      (fun _ => .error "cpp failure") [0]).1 (by rfl),
   (claim_c4_differential_harness (fun _ => .ok [1]) (fun _ => .ok [0]) [171, 1]).2 (by rfl)⟩

/-- C5 counterexample: at a request whose Fp2 Frobenius-coefficient
computation fails, the pair operation returns an `InputError`
("Failed to calculate Frobenius coeffs for Fp2"), not the
`UnknownParameter` error the claim demands for every tower level. -/
theorem claim_c5_counterexample :
    pairBls12 failFrobFp2Externals frobStageBytes
      = .error (.InputError "Failed to calculate Frobenius coeffs for Fp2") ∧
    isUnknownParameterResult (pairBls12 failFrobFp2Externals frobStageBytes) = false := by
  constructor <;> rfl

/-- C5 (amended): a failed Frobenius-coefficient computation is mapped to a
returned error, never a panic, but the error kind depends on the tower
level: `InputError` at the Fp2 level, `UnknownParameter` at the Fp6 level,
and `InputError` at the Fp12 level. -/
theorem claim_c5_frobenius_error_mapping :
    (∀ (ext : Externals) (bytes r1 r2 r3 r4 : List Nat)
      (p mlen modulus a b order olen nr : Nat),
      parse_base_field_from_encoding bytes = .ok (p, mlen, modulus, r1) →
      parse_ab_in_base_field_from_encoding r1 mlen p = .ok (a, b, r2) →
      a = 0 →
      parse_group_order_from_encoding r2 = .ok (order, olen, r3) →
      decode_fp r3 mlen p = .ok (nr, r4) →
      ext.frobFp2 ⟨p, nr, (0, 0)⟩ = none →
      pairBls12 ext bytes
        = .error (.InputError "Failed to calculate Frobenius coeffs for Fp2")) ∧
    (∀ (ext : Externals) (bytes r1 r2 r3 r4 r5 r6 : List Nat)
      (p mlen modulus a b order olen nr t : Nat) (fc : Nat × Nat) (x2 : Fp2R),
      parse_base_field_from_encoding bytes = .ok (p, mlen, modulus, r1) →
      parse_ab_in_base_field_from_encoding r1 mlen p = .ok (a, b, r2) →
      a = 0 →
      parse_group_order_from_encoding r2 = .ok (order, olen, r3) →
      decode_fp r3 mlen p = .ok (nr, r4) →
      ext.frobFp2 ⟨p, nr, (0, 0)⟩ = some fc →
      decode_fp2 r4 mlen ⟨p, nr, fc⟩ = .ok (x2, r5) →
      r5 = t :: r6 →
      (t = TWIST_TYPE_D ∨ t = TWIST_TYPE_M) →
      ext.frobFp6 modulus ⟨x2, fp2One p, 8, 7⟩
        ⟨x2, ⟨p, nr, fc⟩, List.replicate 6 fp2Zero, List.replicate 6 fp2Zero⟩ = none →
      pairBls12 ext bytes
        = .error (.UnknownParameter "Can not calculate Frobenius coefficients for Fp6")) ∧
    (∀ (ext : Externals) (bytes r1 r2 r3 r4 r5 r6 : List Nat)
      (p mlen modulus a b order olen nr t : Nat) (fc : Nat × Nat) (x2 : Fp2R)
      (c1s c2s : List Fp2R),
      parse_base_field_from_encoding bytes = .ok (p, mlen, modulus, r1) →
      parse_ab_in_base_field_from_encoding r1 mlen p = .ok (a, b, r2) →
      a = 0 →
      parse_group_order_from_encoding r2 = .ok (order, olen, r3) →
      decode_fp r3 mlen p = .ok (nr, r4) →
      ext.frobFp2 ⟨p, nr, (0, 0)⟩ = some fc →
      decode_fp2 r4 mlen ⟨p, nr, fc⟩ = .ok (x2, r5) →
      r5 = t :: r6 →
      (t = TWIST_TYPE_D ∨ t = TWIST_TYPE_M) →
      ext.frobFp6 modulus ⟨x2, fp2One p, 8, 7⟩
        ⟨x2, ⟨p, nr, fc⟩, List.replicate 6 fp2Zero, List.replicate 6 fp2Zero⟩
        = some (c1s, c2s) →
      ext.frobFp12 modulus ⟨x2, fp2One p, 8, 7⟩
        ⟨fp6Zero, ⟨x2, ⟨p, nr, fc⟩, c1s, c2s⟩, List.replicate 12 fp2Zero⟩ = none →
      pairBls12 ext bytes
        = .error (.InputError "Can not calculate Frobenius coefficients for Fp12")) := by
  refine ⟨?_, ?_, ?_⟩
  · intro ext bytes r1 r2 r3 r4 p mlen modulus a b order olen nr h1 h2 ha h3 h4 h5
    have hs : pairBls12Setup ext bytes
        = .error (.InputError "Failed to calculate Frobenius coeffs for Fp2") := by
      unfold pairBls12Setup
      simp only [h1, h2, ha, h3, h4, h5, ne_eq, not_true_eq_false, if_false,
        not_false_eq_true, ite_true, ite_false]
    unfold pairBls12
    rw [hs]
  · intro ext bytes r1 r2 r3 r4 r5 r6 p mlen modulus a b order olen nr t fc x2
      h1 h2 ha h3 h4 h5 h6 h7 htw h8
    have hs : pairBls12Setup ext bytes
        = .error (.UnknownParameter "Can not calculate Frobenius coefficients for Fp6") := by
      unfold pairBls12Setup
      simp only [h1, h2, ha, h3, h4, h5, h6, h7, ne_eq, not_true_eq_false, if_false,
        not_false_eq_true, ite_true, ite_false]
      rw [if_pos htw]
      simp only [h8]
    unfold pairBls12
    rw [hs]
  · intro ext bytes r1 r2 r3 r4 r5 r6 p mlen modulus a b order olen nr t fc x2 c1s c2s
      h1 h2 ha h3 h4 h5 h6 h7 htw h8 h9
    have hs : pairBls12Setup ext bytes
        = .error (.InputError "Can not calculate Frobenius coefficients for Fp12") := by
      unfold pairBls12Setup
      simp only [h1, h2, ha, h3, h4, h5, h6, h7, ne_eq, not_true_eq_false, if_false,
        not_false_eq_true, ite_true, ite_false]
      rw [if_pos htw]
      simp only [h8, h9]
    unfold pairBls12
    rw [hs]

/-- C5 witness: concrete requests hitting each of the three
Frobenius-failure stages produce exactly the mapped error of that stage. -/
theorem claim_c5_witness :
    pairBls12 failFrobFp2Externals frobStageBytes
      = .error (.InputError "Failed to calculate Frobenius coeffs for Fp2") ∧
    pairBls12 failFrobFp6Externals fp6StageBytes
      = .error (.UnknownParameter "Can not calculate Frobenius coefficients for Fp6") ∧
    pairBls12 failFrobFp12Externals fp6StageBytes
      = .error (.InputError "Can not calculate Frobenius coefficients for Fp12") :=
  ⟨claim_c5_frobenius_error_mapping.1 failFrobFp2Externals frobStageBytes
      [0, 1, 1, 7, 2] [1, 7, 2] [2] [] 5 1 5 0 1 7 1 2
      (by rfl) (by rfl) (by rfl) (by rfl) (by rfl) (by rfl),
   claim_c5_frobenius_error_mapping.2.1 failFrobFp6Externals fp6StageBytes
      [0, 1, 1, 7, 2, 2, 0, 1] [1, 7, 2, 2, 0, 1] [2, 2, 0, 1] [2, 0, 1] [1] []
      5 1 5 0 1 7 1 2 1 (0, 0) ⟨2, 0⟩
      (by rfl) (by rfl) (by rfl) (by rfl) (by rfl) (by rfl) (by rfl) (by rfl)
      (Or.inl (by rfl)) (by rfl),
   claim_c5_frobenius_error_mapping.2.2 failFrobFp12Externals fp6StageBytes
      [0, 1, 1, 7, 2, 2, 0, 1] [1, 7, 2, 2, 0, 1] [2, 2, 0, 1] [2, 0, 1] [1] []
      5 1 5 0 1 7 1 2 1 (0, 0) ⟨2, 0⟩
      (List.replicate 6 fp2Zero) (List.replicate 6 fp2Zero)
      (by rfl) (by rfl) (by rfl) (by rfl) (by rfl) (by rfl) (by rfl) (by rfl)
      (Or.inl (by rfl)) (by rfl) (by rfl)⟩

/-- C6: the twist curve's B coefficient satisfies the twist-type-dependent
equation — for a D-type twist, the constructed B multiplied by the Fp2
non-residue equals the base curve's B lifted into Fp2, and for an M-type
twist the constructed B equals the lifted base B times the Fp2
non-residue.  The hypotheses are exactly what holds at the construction
site: the base B is a decoded field element, and the inverse of the Fp2
non-residue was computed successfully. -/
theorem claim_c6_twist_b_property (p nr b : Nat) (x inv : Fp2R)
    (hb : b < p) (hinv : fp2Inverse p nr x = some inv) :
    fp2Mul p nr (buildTwistB p x inv b .D) x = ⟨b, 0⟩ ∧
    buildTwistB p x inv b .M = fp2Mul p nr ⟨b, 0⟩ x := by
  constructor
  · show fp2Mul p nr (fp2MulByFp p inv b) x = ⟨b, 0⟩
    rw [fp2Mul_mulByFp, fp2Mul_comm p nr inv x, fp2Inverse_mul hinv, fp2MulByFp_one p b hb]
  · show fp2MulByFp p x b = fp2Mul p nr ⟨b, 0⟩ x
    simp only [fp2Mul, fp2MulByFp, Fp2R.mk.injEq]
    constructor <;> (congr 1; ring)

/-- C6 witness: over the 5-element field with non-residue 2, the Fp2
non-residue (2, 0) has inverse (3, 0), and both twist coefficient
equations hold for base B = 1. -/
theorem claim_c6_witness :
    fp2Mul 5 2 (buildTwistB 5 ⟨2, 0⟩ ⟨3, 0⟩ 1 .D) ⟨2, 0⟩ = ⟨1, 0⟩ ∧
    buildTwistB 5 ⟨2, 0⟩ ⟨3, 0⟩ 1 .M = fp2Mul 5 2 ⟨1, 0⟩ ⟨2, 0⟩ :=
  claim_c6_twist_b_property 5 2 1 ⟨2, 0⟩ ⟨3, 0⟩ (by decide) (by rfl)

/-- C7: a request whose decoded base-curve A coefficient is nonzero is
rejected with the `UnknownParameter` error of `pairing_ops.rs` line 96. -/
theorem claim_c7_nonzero_a_rejected
    (ext : Externals) (bytes r1 r2 : List Nat) (p mlen modulus a b : Nat)
    (h1 : parse_base_field_from_encoding bytes = .ok (p, mlen, modulus, r1))
    (h2 : parse_ab_in_base_field_from_encoding r1 mlen p = .ok (a, b, r2))
    (ha : a ≠ 0) :
    pairBls12 ext bytes = .error (.UnknownParameter "A parameter must be zero for BLS12 curve") := by
  have hs : pairBls12Setup ext bytes
      = .error (.UnknownParameter "A parameter must be zero for BLS12 curve") := by
    unfold pairBls12Setup
    simp only [h1, h2, ha, if_true, ne_eq, not_false_eq_true, ite_true]
  unfold pairBls12
  rw [hs]

/-- C7 witness: a payload decoding A = 2 over the 5-element field is
rejected with the nonzero-A `UnknownParameter` error. -/
theorem claim_c7_witness :
    pairBls12 testExternals nonzeroABytes
      = .error (.UnknownParameter "A parameter must be zero for BLS12 curve") :=
  claim_c7_nonzero_a_rejected testExternals nonzeroABytes [2, 1] [] 5 1 5 2 1
    (by rfl) (by rfl) (by decide)

/-- C8: a request whose twist-type byte is neither the D tag nor the M tag
is rejected with the `UnknownParameter` error of `pairing_ops.rs`
line 135. -/
theorem claim_c8_unknown_twist_rejected
    (ext : Externals) (bytes r1 r2 r3 r4 r5 r6 : List Nat)
    (p mlen modulus a b order olen nr t : Nat) (fc : Nat × Nat) (x2 : Fp2R)
    (h1 : parse_base_field_from_encoding bytes = .ok (p, mlen, modulus, r1))
    (h2 : parse_ab_in_base_field_from_encoding r1 mlen p = .ok (a, b, r2))
    (ha : a = 0)
    (h3 : parse_group_order_from_encoding r2 = .ok (order, olen, r3))
    (h4 : decode_fp r3 mlen p = .ok (nr, r4))
    (h5 : ext.frobFp2 ⟨p, nr, (0, 0)⟩ = some fc)
    (h6 : decode_fp2 r4 mlen ⟨p, nr, fc⟩ = .ok (x2, r5))
    (h7 : r5 = t :: r6)
    (ht1 : t ≠ TWIST_TYPE_D) (ht2 : t ≠ TWIST_TYPE_M) :
    pairBls12 ext bytes = .error (.UnknownParameter "Unknown twist type supplied") := by
  have hs : pairBls12Setup ext bytes
      = .error (.UnknownParameter "Unknown twist type supplied") := by
    unfold pairBls12Setup
    simp only [h1, h2, ha, h3, h4, h5, h6, h7, ne_eq, not_true_eq_false, if_false,
      not_false_eq_true, ite_true, ite_false]
    rw [if_neg]
    simp [ht1, ht2]
  unfold pairBls12
  rw [hs]

/-- C8 witness: a payload with twist-type byte 9 is rejected with the
unknown-twist-type `UnknownParameter` error. -/
theorem claim_c8_witness :
    pairBls12 testExternals badTwistBytes
      = .error (.UnknownParameter "Unknown twist type supplied") :=
  claim_c8_unknown_twist_rejected testExternals badTwistBytes
    [0, 1, 1, 7, 2, 2, 0, 9] [1, 7, 2, 2, 0, 9] [2, 2, 0, 9] [2, 0, 9] [9] []
    5 1 5 0 1 7 1 2 9 (0, 0) ⟨2, 0⟩
    (by rfl) (by rfl) (by rfl) (by rfl) (by rfl) (by rfl) (by rfl) (by rfl)
    (by decide) (by decide)

/-- C9: after the leading encodings parse, the public entry point computes
`floor(bits / 64) + 1` limbs independently for the modulus and for the
group order (stated via Mathlib's binary length `Nat.size`) and hands the
whole request to the limb-pair specialization dispatcher at exactly that
pair of limb counts. -/
theorem claim_c9_limb_dispatch (ext : Externals) (bytes : List Nat) (enc : ParsedEncodings)
    (hlen : CURVE_TYPE_LENGTH ≤ bytes.length)
    (henc : parse_encodings (bytes.drop CURVE_TYPE_LENGTH) = .ok enc) :
    publicPair ext bytes
      = expand_for_modulus_and_group_limbs ext
          (Nat.size enc.modulus / 64 + 1) (Nat.size enc.order / 64 + 1) bytes := by
  unfold publicPair
  rw [if_neg (by omega)]
  rw [henc]
  simp only [bitLength_eq_size]

/-- C9 witness: on a payload with modulus 5 and order 7, the public entry
point dispatches at limb pair (1, 1). -/
theorem claim_c9_witness :
    publicPair testExternals publicPairBytes
      = expand_for_modulus_and_group_limbs testExternals
          (Nat.size 5 / 64 + 1) (Nat.size 7 / 64 + 1) publicPairBytes :=
  claim_c9_limb_dispatch testExternals publicPairBytes ⟨5, 1, [0], [0], 7, 1, []⟩
    (by decide) (by rfl)

/-- C10: when the decoded Fp2 non-residue has no multiplicative inverse,
the request is rejected with the `UnexpectedZero` error of
`pairing_ops.rs` line 174, for either valid twist type — including M-type
twists, whose B-coefficient transform never uses the inverse — because the
inverse is computed before the twist-type branch. -/
theorem claim_c10_noninvertible_nonresidue
    (ext : Externals) (bytes r1 r2 r3 r4 r5 r6 : List Nat)
    (p mlen modulus a b order olen nr t : Nat) (fc : Nat × Nat) (x2 : Fp2R)
    (c1s c2s c12 : List Fp2R)
    (h1 : parse_base_field_from_encoding bytes = .ok (p, mlen, modulus, r1))
    (h2 : parse_ab_in_base_field_from_encoding r1 mlen p = .ok (a, b, r2))
    (ha : a = 0)
    (h3 : parse_group_order_from_encoding r2 = .ok (order, olen, r3))
    (h4 : decode_fp r3 mlen p = .ok (nr, r4))
    (h5 : ext.frobFp2 ⟨p, nr, (0, 0)⟩ = some fc)
    (h6 : decode_fp2 r4 mlen ⟨p, nr, fc⟩ = .ok (x2, r5))
    (h7 : r5 = t :: r6)
    (htw : t = TWIST_TYPE_D ∨ t = TWIST_TYPE_M)
    (h8 : ext.frobFp6 modulus ⟨x2, fp2One p, 8, 7⟩
      ⟨x2, ⟨p, nr, fc⟩, List.replicate 6 fp2Zero, List.replicate 6 fp2Zero⟩
      = some (c1s, c2s))
    (h9 : ext.frobFp12 modulus ⟨x2, fp2One p, 8, 7⟩
      ⟨fp6Zero, ⟨x2, ⟨p, nr, fc⟩, c1s, c2s⟩, List.replicate 12 fp2Zero⟩ = some c12)
    (hninv : ¬ ∃ y, fp2Mul p nr x2 y = fp2One p) :
    pairBls12 ext bytes = .error (.UnexpectedZero "Fp2 non-residue must be invertible") := by
  have hs : pairBls12Setup ext bytes
      = .error (.UnexpectedZero "Fp2 non-residue must be invertible") := by
    unfold pairBls12Setup
    simp only [h1, h2, ha, h3, h4, h5, h6, h7, ne_eq, not_true_eq_false, if_false,
      not_false_eq_true, ite_true, ite_false]
    rw [if_pos htw]
    simp only [h8, h9, fp2Inverse_eq_none hninv]
  unfold pairBls12
  rw [hs]

/-- C10 witness: an M-type request whose decoded Fp2 non-residue is (0, 0)
(which has no inverse) is rejected with the `UnexpectedZero` error. -/
theorem claim_c10_witness :
    pairBls12 testExternals zeroNonResidueBytes
      = .error (.UnexpectedZero "Fp2 non-residue must be invertible") :=
  claim_c10_noninvertible_nonresidue testExternals zeroNonResidueBytes
    [0, 1, 1, 7, 2, 0, 0, 2] [1, 7, 2, 0, 0, 2] [2, 0, 0, 2] [0, 0, 2] [2] []
    5 1 5 0 1 7 1 2 2 (0, 0) ⟨0, 0⟩
    (List.replicate 6 fp2Zero) (List.replicate 6 fp2Zero) (List.replicate 12 fp2Zero)
    (by rfl) (by rfl) (by rfl) (by rfl) (by rfl) (by rfl) (by rfl) (by rfl)
    (Or.inr (by rfl)) (by rfl) (by rfl)
    (by
      rintro ⟨y, hy⟩
      simp [fp2Mul, fp2One] at hy)
